import Mathlib

/-!
Verification development for the plex-mcp-server repository.

The Python source under src/plex_mcp_server is shallowly embedded here:
  * pure computations become Lean functions;
  * calls into the external plexapi client library are modelled by a
    `PlexServer` value (the data the library would report) plus, where a call
    takes arguments or may raise, explicit function / `Except` fields;
  * Python exceptions are modelled by `Except PyErr`, with the message text
    as the carried value; the uniform `try/except Exception` boundary of every
    tool handler is the `toolHandler` combinator;
  * pydantic model construction is modelled by `pydanticInit`, which mirrors
    pydantic's default configuration: unknown keyword arguments are ignored
    and a missing required field raises a ValidationError.  The keyword names
    each call site passes and the field names each model declares are
    transcribed from the source, because several call sites pass camelCase
    keywords to models whose declared fields are snake_case.
-/

namespace PlexSpec

/-- A Python exception, rendered as its message text (`str(e)`). -/
abbrev PyErr := String

/-- types/models.py `ErrorResponse`: status defaults to "error". -/
structure ErrorResponse where
  status : String := "error"
  message : String
deriving Repr, DecidableEq

/-- A tool handler returns either its success model or an `ErrorResponse`
(the Python return type is a union `X | ErrorResponse`). -/
inductive ToolResult (α : Type) where
  | success (r : α)
  | failure (e : ErrorResponse)
deriving Repr, DecidableEq

/-- Is the returned record the error record? -/
def ToolResult.isErrorRecord : ToolResult α → Bool
  | .success _ => false
  | .failure _ => true

/-- The `try: ... except Exception as e: return ErrorResponse(message=prefix+str(e))`
boundary every tool handler wraps its body in.  The body itself may also
return an `ErrorResponse` directly (validation failures), hence
`Except PyErr (ToolResult α)`. -/
def toolHandler (pre : String) (body : Except PyErr (ToolResult α)) : ToolResult α :=
  match body with
  | .ok r => r
  | .error e => .failure { message := pre ++ e }

/-- Pydantic `BaseModel.__init__` under the default model config (which is what
every model in types/models.py uses for field handling): keyword arguments
whose names match no declared field are ignored, and if any required declared
field receives no keyword a ValidationError is raised.  `required` lists the
model's required (defaultless) field names, `passed` the keyword names the
call site passes, and `value` the record the call would produce when every
required field is supplied (it is returned only in that case). -/
def pydanticInit (modelName : String) (required passed : List String) (value : α) :
    Except PyErr α :=
  if required.all (fun f => passed.contains f) then .ok value
  else
    .error ("validation error for " ++ modelName ++ ": missing required fields "
      ++ String.intercalate ", " (required.filter (fun f => !(passed.contains f))))

/-- Python `a or b` on strings with default-as-"Unknown" operands: the first
operand when truthy (non-empty), else the second. -/
def pyOrStr (a b : String) : String := if a ≠ "" then a else b

/-- Python `str.lower()` restricted to ASCII letters (the only case the
embedded comparisons exercise); written on the character list so that it
evaluates inside the kernel. -/
def pyLowerChar (c : Char) : Char :=
  if c.toNat ≥ 65 ∧ c.toNat ≤ 90 then Char.ofNat (c.toNat + 32) else c

/-- Python `s.lower()`. -/
def pyLower (s : String) : String := String.mk (s.data.map pyLowerChar)

/-- Python substring test `needle in haystack`. -/
def strContains (haystack needle : String) : Bool :=
  (List.range (haystack.length + 1)).any
    (fun i => needle.toList.isPrefixOf (haystack.toList.drop i))

/-- Leading/trailing whitespace stripping as Python `int` applies it. -/
def pyStrip (l : List Char) : List Char :=
  ((l.dropWhile Char.isWhitespace).reverse.dropWhile Char.isWhitespace).reverse

/-- Decimal digits to a number; `none` on a non-digit. -/
def pyNatOfDigits : List Char → Nat → Option Nat
  | [], acc => some acc
  | c :: rest, acc =>
      if c.isDigit then pyNatOfDigits rest (acc * 10 + (c.toNat - 48)) else none

/-- Python `int(s)`: parse an optionally signed, whitespace-trimmed decimal
literal or raise ValueError. -/
def pyInt (s : String) : Except PyErr Int :=
  let t := pyStrip s.toList
  let signedDigits : Int × List Char :=
    match t with
    | '-' :: rest => (-1, rest)
    | '+' :: rest => (1, rest)
    | _ => (1, t)
  match pyNatOfDigits signedDigits.2 0 with
  | some n =>
      if signedDigits.2.isEmpty then
        .error ("invalid literal for int() with base 10: " ++ s)
      else .ok (signedDigits.1 * n)
  | none => .error ("invalid literal for int() with base 10: " ++ s)

/-! ## Data reported by the plexapi client library

Attributes the handlers read through `getattr(x, name, default)` or guard with
`hasattr` are `Option`-valued (`none` = the attribute is absent); attributes
accessed directly are plain fields. -/

/-- A client device (plexapi client or session player object). -/
structure Player where
  title : String
  machineIdentifier : Option String := none
  device : Option String := none
  model : Option String := none
  product : Option String := none
  version : Option String := none
  platform : Option String := none
  state : Option String := none
  address : Option String := none
  baseurl : Option String := none
  protocolCapabilities : List String := []
deriving Repr, DecidableEq

/-- A transcode session attached to a playback session. -/
structure TranscodeSession where
  sourceVideoCodec : Option String := none
  videoCodec : Option String := none
  sourceAudioCodec : Option String := none
  audioCodec : Option String := none
  sourceResolution : Option String := none
  width : Option Int := none
  height : Option Int := none
deriving Repr, DecidableEq

/-- A media part of a playback session (bitrate / resolution source). -/
structure SessionMedia where
  bitrate : Option Int := none
  videoResolution : Option String := none
deriving Repr, DecidableEq

/-- An active playback session as reported by `plex.sessions()`. -/
structure PlexSession where
  player : Option Player := none
  title : Option String := none
  type : Option String := none
  year : Option Int := none
  viewOffset : Option Int := none
  duration : Option Int := none
  usernames : Option (List String) := none
  grandparentTitle : Option String := none
  parentTitle : Option String := none
  parentIndex : Option Int := none
  index : Option Int := none
  media : List SessionMedia := []
  transcodeSessions : List TranscodeSession := []
deriving Repr, DecidableEq

/-- A collection object inside a library section. -/
structure PlexCollection where
  title : String
  ratingKey : Int
  summary : String := ""
  smart : Bool := false
  childCount : Nat := 0
deriving Repr, DecidableEq

/-- A media item (movie/show/episode/...) addressable by rating key. -/
structure MediaItem where
  title : String
  ratingKey : Int
  type : String := "movie"
  year : Option Int := none
deriving Repr, DecidableEq

/-- A library section as reported by `plex.library.sections()`.  `search` is
the behaviour of the external `library.search(title=...)` call, supplied by
the world; `updatedAtIso` is `lib.updatedAt.isoformat()`.  `collections` is
what exists in the section; `collectionsRaises` is the behaviour of the
external `library.collections()` call: `none` means it returns
`collections`, `some e` means it raises the exception `e`. -/
structure LibrarySection where
  title : String
  type : String := "movie"
  key : Int := 0
  totalSize : Nat := 0
  uuid : String := ""
  locations : List String := []
  updatedAtIso : String := ""
  collections : List PlexCollection := []
  collectionsRaises : Option PyErr := none
  search : String → List MediaItem := fun _ => []
  createdCollectionKey : Int := 0

/-- The connected Plex server: what the external library reports.  `fetchItem`
is the behaviour of `plex.fetchItem(id)` (`none` = the call raises NotFound). -/
structure PlexServer where
  clients : List Player := []
  sessions : List PlexSession := []
  sections : List LibrarySection := []
  fetchItem : Int → Option MediaItem := fun _ => none

/-! ## client_list (modules/client.py lines 38-105) -/

/-- types/models.py `ClientInfo`: the declared (all required) fields. -/
structure ClientInfo where
  name : String
  device : String
  model : String
  product : String
  version : String
  platform : String
  state : String
  machine_identifier : String
  address : String
  protocol_capabilities : List String
deriving Repr, DecidableEq

/-- The declared field names of pydantic model `ClientInfo`
(types/models.py lines 12-24); all are required (no defaults). -/
def ClientInfo.requiredFields : List String :=
  ["name", "device", "model", "product", "version", "platform", "state",
   "machine_identifier", "address", "protocol_capabilities"]

/-- The keyword names passed at the `ClientInfo(...)` call in `client_list`
(modules/client.py lines 79-91). -/
def clientListKwargNames : List String :=
  ["name", "device", "model", "product", "version", "platform", "state",
   "machineIdentifier", "address", "protocolCapabilities"]

/-- `getattr(client, "_baseurl", "Unknown") or getattr(client, "address", "Unknown")`. -/
def clientAddress (c : Player) : String :=
  pyOrStr (c.baseurl.getD "Unknown") (c.address.getD "Unknown")

/-- The `ClientInfo(...)` construction in `client_list` with the values the
call site computes and the keyword names it passes. -/
def mkClientInfo_clientList (c : Player) : Except PyErr ClientInfo :=
  pydanticInit "ClientInfo" ClientInfo.requiredFields clientListKwargNames
    { name := c.title
      device := c.device.getD "Unknown"
      model := c.model.getD "Unknown"
      product := c.product.getD "Unknown"
      version := c.version.getD "Unknown"
      platform := c.platform.getD "Unknown"
      state := c.state.getD "Unknown"
      machine_identifier := c.machineIdentifier.getD "Unknown"
      address := clientAddress c
      protocol_capabilities := c.protocolCapabilities }

/-- The `clients` field of `ClientListResponse` is
`list[ClientInfo] | list[str]`. -/
inductive ClientsField where
  | detailed (l : List ClientInfo)
  | titles (l : List String)
deriving Repr, DecidableEq

/-- types/models.py `ClientListResponse`. -/
structure ClientListResponse where
  status : String
  message : String
  count : Nat
  clients : ClientsField
deriving Repr, DecidableEq

/-- The dedup loop of `client_list` (client.py lines 64-67): append each
session player whose `machineIdentifier` is present and not yet seen. -/
def addSessionClients (base : List Player) (ids : List String) :
    List Player → List Player
  | [] => base
  | c :: rest =>
    match c.machineIdentifier with
    | some mid =>
        if ids.contains mid then addSessionClients base ids rest
        else addSessionClients (base ++ [c]) (ids ++ [mid]) rest
    | none => addSessionClients base ids rest

/-- modules/client.py `client_list` (lines 38-105).  The argument `plexE` is
the outcome of `connect_to_plex()`. -/
def client_list (plexE : Except PyErr PlexServer) (include_details : Bool := true) :
    ToolResult ClientListResponse :=
  toolHandler "Error listing clients: " (do
    let plex ← plexE
    let clients := plex.clients
    let sessions := plex.sessions
    let session_clients := sessions.filterMap (fun s => s.player)
    let client_ids ← clients.mapM (fun c =>
      match c.machineIdentifier with
      | some mid => Except.ok mid
      | none => Except.error "AttributeError: machineIdentifier")
    let all_clients := addSessionClients clients client_ids session_clients
    if all_clients.isEmpty then
      pure (.success { status := "success"
                       message := "No clients currently connected to your Plex server."
                       count := 0
                       clients := .titles [] })
    else do
      let result ← if include_details then do
          let infos ← all_clients.mapM mkClientInfo_clientList
          pure (ClientsField.detailed infos)
        else
          pure (ClientsField.titles (all_clients.map (fun c => c.title)))
      pure (.success { status := "success"
                       message := "Found " ++ toString all_clients.length
                          ++ " connected clients"
                       count := all_clients.length
                       clients := result }))

/-- A server state in which the client library reports exactly two connected
client devices and no playback sessions. -/
def clientA : Player :=
  { title := "Living Room TV", machineIdentifier := some "machine-a"
    protocolCapabilities := ["playback"] }

def clientB : Player :=
  { title := "Bedroom Roku", machineIdentifier := some "machine-b" }

def twoClientServer : PlexServer := { clients := [clientA, clientB] }

/-! ## library_list (modules/library.py lines 51-74) -/

/-- types/models.py `LibraryInfo`: declared fields, all required. -/
structure LibraryInfo where
  type : String
  library_id : String
  total_size : Nat
  uuid : String
  locations : List String
  updated_at : String
deriving Repr, DecidableEq

/-- Declared field names of pydantic model `LibraryInfo`
(types/models.py lines 338-347); all required. -/
def LibraryInfo.requiredFields : List String :=
  ["type", "library_id", "total_size", "uuid", "locations", "updated_at"]

/-- Keyword names passed at the `LibraryInfo(...)` call in `library_list`
(modules/library.py lines 63-70). -/
def libraryListKwargNames : List String :=
  ["type", "libraryId", "totalSize", "uuid", "locations", "updatedAt"]

/-- The `LibraryInfo(...)` construction in `library_list`. -/
def mkLibraryInfo_libraryList (lib : LibrarySection) : Except PyErr LibraryInfo :=
  pydanticInit "LibraryInfo" LibraryInfo.requiredFields libraryListKwargNames
    { type := lib.type
      library_id := toString lib.key
      total_size := lib.totalSize
      uuid := lib.uuid
      locations := lib.locations
      updated_at := lib.updatedAtIso }

/-- types/models.py `LibraryListResponse`; the `libraries` dict keyed by
section title is an insertion-ordered association list. -/
structure LibraryListResponse where
  libraries : Option (List (String × LibraryInfo)) := none
  message : Option String := none
deriving Repr, DecidableEq

/-- modules/library.py `library_list` (lines 51-74). -/
def library_list (plexE : Except PyErr PlexServer) : ToolResult LibraryListResponse :=
  toolHandler "Error listing libraries: " (do
    let plex ← plexE
    let libraries := plex.sections
    if libraries.isEmpty then
      pure (.success { message := some "No libraries found on your Plex server." })
    else do
      let libraries_dict ← libraries.mapM (fun lib => do
        let info ← mkLibraryInfo_libraryList lib
        pure (lib.title, info))
      pure (.success { libraries := some libraries_dict }))

/-- A server with a single movie library section. -/
def moviesSection : LibrarySection :=
  { title := "Movies", type := "movie", key := 1, totalSize := 120
    uuid := "uuid-1", locations := ["/data/movies"]
    updatedAtIso := "2024-01-01T00:00:00" }

def oneSectionServer : PlexServer := { sections := [moviesSection] }

/-! ## Entry point configuration (src/plex_mcp_server/__main__.py lines 8-13,
server.py line 105) -/

/-- The process environment: `os.environ.get`. -/
abbrev Environ := String → Option String

/-- `os.environ.get(key, default)`. -/
def environGetD (env : Environ) (key default : String) : String :=
  (env key).getD default

/-- `host = os.environ.get("FASTMCP_HOST", "0.0.0.0")` (__main__.py line 10). -/
def mainHost (env : Environ) : String := environGetD env "FASTMCP_HOST" "0.0.0.0"

/-- `port = int(os.environ.get("FASTMCP_PORT", "3001"))` (__main__.py line 11). -/
def mainPort (env : Environ) : Except PyErr Int :=
  pyInt (environGetD env "FASTMCP_PORT" "3001")

/-- `debug = os.environ.get("FASTMCP_DEBUG", "False") == "True"`
(__main__.py line 12 and, identically, server.py line 105). -/
def fastmcpDebug (env : Environ) : Bool :=
  environGetD env "FASTMCP_DEBUG" "False" == "True"

/-! ## Guarded playback-progress computations (modules/client.py lines
260-292 and 322-331, lines 400-405; modules/sessions.py lines 115-125)

Durations and offsets are exact integers (milliseconds) and the percentage is
computed in `ℚ`; every division is routed through `qdiv`, which signals a
Python ZeroDivisionError instead of dividing by zero, so "the code never
divides by zero" is the statement that these computations never return
`.error`. -/

/-- Division as Python performs it: raises ZeroDivisionError on a zero
denominator. -/
def qdiv (a b : ℚ) : Except PyErr ℚ :=
  if b = 0 then .error "division by zero" else .ok (a / b)

/-- Python `round(x, ndigits)` on an exact rational. -/
def pyRoundTo (ndigits : ℕ) (x : ℚ) : ℚ :=
  (round (x * (10 : ℚ) ^ ndigits) : ℤ) / (10 : ℚ) ^ ndigits

/-- `round((view_offset / duration * 100) if duration else 0, 2)` — the
progress expression of `client_get_timelines` (client.py lines 266-269,
290-292 and 328-331; in the timeline branch the operands are
`timeline.time` and `timeline.duration`). -/
def timelinesProgress (view_offset duration : Int) : Except PyErr ℚ := do
  let raw ← if duration ≠ 0 then do
      let q ← qdiv (view_offset : ℚ) (duration : ℚ)
      pure (q * 100)
    else pure 0
  pure (pyRoundTo 2 raw)

/-- client.py lines 400-405 (`client_get_active`): progress is `None` unless
both values are present and the duration is truthy (non-zero). -/
def activeClientProgress (view_offset duration : Option Int) :
    Except PyErr (Option ℚ) :=
  match view_offset, duration with
  | some v, some d =>
      if d ≠ 0 then do
        let q ← qdiv (v : ℚ) (d : ℚ)
        pure (some (pyRoundTo 1 (q * 100)))
      else pure none
  | _, _ => pure none

/-- The progress block of `sessions_get_active` (sessions.py lines 115-125). -/
structure ProgressInfo where
  percent : ℚ
  minutes_remaining : Int
deriving Repr, DecidableEq

/-- sessions.py lines 115-125: progress is reported only when both values are
present and `duration > 0`. -/
def sessionProgress (view_offset duration : Option Int) :
    Except PyErr (Option ProgressInfo) :=
  match view_offset, duration with
  | some v, some d =>
      if d > 0 then do
        let progress100 ← qdiv (v : ℚ) (d : ℚ)
        let progress := progress100 * 100
        let seconds_remaining ← qdiv ((d : ℚ) - (v : ℚ)) 1000
        let minutes_remaining ← qdiv seconds_remaining 60
        pure (some { percent := pyRoundTo 1 progress
                     minutes_remaining :=
                       if minutes_remaining > 1 then ⌊minutes_remaining⌋ else 0 })
      else pure none
  | _, _ => pure none

/-! ## sessions_get_active (modules/sessions.py lines 24-200) -/

/-- The optional `media_info` block of a session entry (sessions.py lines
128-149): a key appears only when the underlying value is truthy. -/
structure SessionMediaInfo where
  bitrate : Option String := none
  resolution : Option String := none
deriving Repr, DecidableEq

/-- The `transcoding` block (sessions.py lines 151-186): either the
transcode-session rendering or the direct-play marker
`{"active": False, "mode": "Direct Play/Stream"}`. -/
inductive TranscodingInfo where
  | active (video audio resolution : Option String)
  | directPlay
deriving Repr, DecidableEq

/-- One entry of the `sessions` list (the raw `session_info` dict of
sessions.py lines 59-188; the `player` sub-dict is an insertion-ordered
association list). -/
structure SessionInfo where
  session_id : Nat
  state : String
  player_name : String
  user : String
  content_type : String
  content_description : String
  year : Option Int := none
  player : List (String × String) := []
  progress : Option ProgressInfo := none
  media_info : Option SessionMediaInfo := none
  transcoding : TranscodingInfo
deriving Repr, DecidableEq

/-- types/models.py `SessionsActiveResponse`. -/
structure SessionsActiveResponse where
  status : String
  message : String
  sessions_count : Nat
  transcode_count : Option Nat := none
  direct_play_count : Option Nat := none
  total_bitrate_kbps : Option Int := none
  sessions : List SessionInfo
deriving Repr, DecidableEq

/-- `getattr(session, "usernames", ["Unknown User"])[0]` (sessions.py line
57): raises IndexError when the attribute is present but empty. -/
def sessionUser (s : PlexSession) : Except PyErr String :=
  match (s.usernames.getD ["Unknown User"]).head? with
  | some u => .ok u
  | none => .error "list index out of range"

/-- Render an optional integer index with the `"?"` default of
`getattr(session, "parentIndex", "?")`. -/
def optIdxStr : Option Int → String
  | some n => toString n
  | none => "?"

/-- Render an optional year with the `""` default of
`getattr(session, "year", "")`. -/
def optYearStr : Option Int → String
  | some n => toString n
  | none => ""

/-- The `content_description` of a session entry (sessions.py lines 72-86). -/
def contentDescription (s : PlexSession) : String :=
  let item_type := s.type.getD "unknown"
  let title := s.title.getD "Unknown"
  if item_type = "episode" then
    (s.grandparentTitle.getD "Unknown Show") ++ " - S" ++ optIdxStr s.parentIndex
      ++ "E" ++ optIdxStr s.index ++ " - " ++ title ++ " (TV Episode)"
  else if item_type = "movie" then
    title ++ " (" ++ optYearStr s.year ++ ") (Movie)"
  else
    title ++ " (" ++ item_type ++ ")"

/-- The `player` sub-dict (sessions.py lines 89-112): each key only when the
player has the attribute, in source order ip/platform/product/device/version. -/
def playerInfoDict (p : Player) : List (String × String) :=
  (match p.address with | some a => [("ip", a)] | none => [])
  ++ (match p.platform with | some a => [("platform", a)] | none => [])
  ++ (match p.product with | some a => [("product", a)] | none => [])
  ++ (match p.device with | some a => [("device", a)] | none => [])
  ++ (match p.version with | some a => [("version", a)] | none => [])

/-- The `media_info` block (sessions.py lines 128-149): built from the first
media part; a key appears only when its value is truthy. -/
def sessionMediaInfoOf (s : PlexSession) : Option SessionMediaInfo :=
  match s.media with
  | [] => none
  | m :: _ =>
      let bi : Option String := match m.bitrate with
        | some b => if b ≠ 0 then some (toString b ++ " kbps") else none
        | none => none
      let res : Option String := match m.videoResolution with
        | some r => if r ≠ "" then some r else none
        | none => none
      if bi.isSome || res.isSome then some { bitrate := bi, resolution := res }
      else none

/-- The addition to `total_bitrate` a session contributes (sessions.py lines
137-142): the first media part's bitrate when truthy. -/
def bitrateContribution (s : PlexSession) : Int :=
  match s.media with
  | [] => 0
  | m :: _ =>
      match m.bitrate with
      | some b => if b ≠ 0 then b else 0
      | none => 0

/-- The `transcoding` block (sessions.py lines 151-186). -/
def sessionTranscoding (s : PlexSession) : TranscodingInfo :=
  match s.transcodeSessions with
  | [] => .directPlay
  | t :: _ =>
      .active
        (match t.sourceVideoCodec, t.videoCodec with
         | some sv, some v => some (sv ++ " → " ++ v)
         | _, _ => none)
        (match t.sourceAudioCodec, t.audioCodec with
         | some sa, some a => some (sa ++ " → " ++ a)
         | _, _ => none)
        (match t.sourceResolution, t.width, t.height with
         | some sr, some wd, some ht =>
             some (sr ++ " → " ++ toString wd ++ "x" ++ toString ht)
         | _, _, _ => none)

/-- One `session_info` entry (sessions.py lines 49-188) for the session at
1-based index `i`. -/
def buildSessionInfo (i : Nat) (s : PlexSession) : Except PyErr SessionInfo := do
  let user ← sessionUser s
  let prog ← sessionProgress s.viewOffset s.duration
  pure
    { session_id := i
      state := match s.player with
        | some p => p.state.getD "unknown"
        | none => "unknown"
      player_name := match s.player with
        | some p => p.title
        | none => "Unknown Player"
      user := user
      content_type := s.type.getD "unknown"
      content_description := contentDescription s
      year := if s.type.getD "unknown" = "movie" then s.year else none
      player := match s.player with
        | some p => playerInfoDict p
        | none => []
      progress := prog
      media_info := sessionMediaInfoOf s
      transcoding := sessionTranscoding s }

/-- The session loop of `sessions_get_active` (sessions.py lines 49-188),
threading the entry list and the transcode / direct-play / bitrate
accumulators. -/
def sessionsLoop :
    List PlexSession → Nat → List SessionInfo → Nat → Nat → Int →
      Except PyErr (List SessionInfo × Nat × Nat × Int)
  | [], _, data, t, d, b => .ok (data, t, d, b)
  | s :: rest, i, data, t, d, b => do
      let info ← buildSessionInfo i s
      if s.transcodeSessions.isEmpty then
        sessionsLoop rest (i + 1) (data ++ [info]) t (d + 1) (b + bitrateContribution s)
      else
        sessionsLoop rest (i + 1) (data ++ [info]) (t + 1) d (b + bitrateContribution s)

/-- modules/sessions.py `sessions_get_active` (lines 24-200). -/
def sessions_get_active (plexE : Except PyErr PlexServer) :
    ToolResult SessionsActiveResponse :=
  toolHandler "Error getting active sessions: " (do
    let plex ← plexE
    let sessions := plex.sessions
    if sessions.isEmpty then
      pure (.success { status := "success"
                       message := "No active sessions found."
                       sessions_count := 0
                       sessions := [] })
    else do
      let res ← sessionsLoop sessions 1 [] 0 0 0
      pure (.success { status := "success"
                       message := "Found " ++ toString sessions.length
                          ++ " active sessions"
                       sessions_count := sessions.length
                       transcode_count := some res.2.1
                       direct_play_count := some res.2.2.1
                       total_bitrate_kbps := some res.2.2.2
                       sessions := res.1 }))

/-- A server with one direct-play session, for the C10 witness. -/
def simpleSession : PlexSession :=
  { player := some { title := "Web Player", state := some "playing" }
    title := some "Some Movie", type := some "movie", year := some 2020 }

def oneSessionServer : PlexServer := { sessions := [simpleSession] }

/-! ## client_get_active (modules/client.py lines 356-439) -/

/-- The `media` sub-dict of an active client entry (client.py lines 384-398).
`showTitle` stands for the Python key "show". -/
structure ActiveMediaInfo where
  title : String
  type : String
  showTitle : Option String := none
  season : Option String := none
  seasonEpisode : Option String := none
  year : Option Int := none
deriving Repr, DecidableEq

/-- One entry of `active_clients` (client.py lines 417-427). -/
structure ActiveClientInfo where
  name : String
  device : String
  product : String
  platform : String
  state : String
  user : String
  media : ActiveMediaInfo
  progress : Option ℚ := none
  transcoding : Bool
deriving Repr, DecidableEq

/-- types/models.py `ActiveClientsResponse`. -/
structure ActiveClientsResponse where
  status : String
  message : String
  count : Nat
  active_clients : List ActiveClientInfo
deriving Repr, DecidableEq

/-- The per-session loop of `client_get_active` (client.py lines 380-429):
sessions without a player are skipped. -/
def activeClientsLoop : List PlexSession → Except PyErr (List ActiveClientInfo)
  | [] => .ok []
  | s :: rest =>
      match s.player with
      | none => activeClientsLoop rest
      | some player => do
          let progress ← activeClientProgress s.viewOffset s.duration
          let session_type := s.type
          let media : ActiveMediaInfo :=
            { title := s.title.getD "Unknown"
              type := s.type.getD "Unknown"
              showTitle :=
                if session_type = some "episode"
                then some (s.grandparentTitle.getD "Unknown Show") else none
              season :=
                if session_type = some "episode"
                then some (s.parentTitle.getD "Unknown Season") else none
              seasonEpisode :=
                if session_type = some "episode"
                then some ("S" ++ optIdxStr s.parentIndex ++ "E" ++ optIdxStr s.index)
                else none
              year := if session_type = some "movie" then s.year else none }
          let username := match s.usernames with
            | some (u :: _) => u
            | _ => "Unknown User"
          let info : ActiveClientInfo :=
            { name := player.title
              device := player.device.getD "Unknown"
              product := player.product.getD "Unknown"
              platform := player.platform.getD "Unknown"
              state := player.state.getD "Unknown"
              user := username
              media := media
              progress := progress
              transcoding := !s.transcodeSessions.isEmpty }
          let tail ← activeClientsLoop rest
          pure (info :: tail)

/-- modules/client.py `client_get_active` (lines 356-439). -/
def client_get_active (plexE : Except PyErr PlexServer) :
    ToolResult ActiveClientsResponse :=
  toolHandler "Error getting active clients: " (do
    let plex ← plexE
    let sessions := plex.sessions
    if sessions.isEmpty then
      pure (.success { status := "success"
                       message := "No active playback sessions found."
                       count := 0
                       active_clients := [] })
    else do
      let active_clients ← activeClientsLoop sessions
      pure (.success { status := "success"
                       message := "Found " ++ toString active_clients.length
                          ++ " active clients"
                       count := active_clients.length
                       active_clients := active_clients }))

/-! ## client_get_timelines (modules/client.py lines 195-347) and the shared
client lookup -/

/-- plexapi `PlexServer.client(name)`: scan the reported clients for an exact
title match; `none` models the NotFound it raises otherwise. -/
def plexClientExact (plex : PlexServer) (name : String) : Option Player :=
  plex.clients.find? (fun c => c.title == name)

/-- The fallback the handlers use after NotFound: the first client whose
lowercased title contains the lowercased requested name. -/
def matchingClient (cs : List Player) (name : String) : Option Player :=
  cs.find? (fun c => strContains (pyLower c.title) (pyLower name))

/-- The client lookup of `client_get_timelines` (client.py lines 221-242):
exact match, then substring match over regular clients, then over session
players. -/
def timelinesLookup (plex : PlexServer) (name : String) : Option Player :=
  match plexClientExact plex name with
  | some c => some c
  | none =>
      match matchingClient plex.clients name with
      | some c => some c
      | none =>
          matchingClient (plex.sessions.filterMap (fun s => s.player)) name

/-- A client timeline object as the external library reports it; attributes
the code reads through `getattr(..., default)` are optional. -/
structure ClientTimeline where
  type : String
  state : String
  time : Int
  duration : Int
  key : Option String := none
  ratingKey : Option Int := none
  playQueueItemID : Option Int := none
  playbackRate : Option Int := none
  shuffled : Option Bool := none
  repeated : Option Int := none
  muted : Option Bool := none
  volume : Option Int := none
  title : Option String := none
  guid : Option String := none
deriving Repr, DecidableEq

/-- The `timeline_data` dict of `client_get_timelines` (client.py lines
285-303). -/
structure TimelineData where
  type : String
  state : String
  time : Int
  duration : Int
  progress : ℚ
  key : Option String := none
  ratingKey : Option Int := none
  playQueueItemID : Option Int := none
  playbackRate : Int := 1
  shuffled : Bool := false
  repeated : Int := 0
  muted : Bool := false
  volume : Option Int := none
  title : Option String := none
  guid : Option String := none
deriving Repr, DecidableEq

/-- The `session_data` dict of `client_get_timelines` (client.py lines
262-272 and 324-334). -/
structure SessionTimelineData where
  state : String
  time : Int
  duration : Int
  progress : ℚ
  title : String
  type : String
deriving Repr, DecidableEq

/-- The `timeline` field of a `ClientTimelineResponse` comes either from the
client timeline or from session data. -/
inductive TimelinePayload where
  | fromTimeline (d : TimelineData)
  | fromSession (d : SessionTimelineData)
deriving Repr, DecidableEq

/-- types/models.py `ClientTimelineResponse`. -/
structure ClientTimelineResponse where
  status : String
  message : Option String := none
  client_name : Option String := none
  source : Option String := none
  timeline : Option TimelinePayload := none
deriving Repr, DecidableEq

/-- The world a client-directed handler runs against: the connection outcome
and the behaviour of reading `client.timeline` (which can raise or be None). -/
structure ClientWorld where
  plexE : Except PyErr PlexServer
  timelineOf : Player → Except PyErr (Option ClientTimeline)

/-- The session-matching loop of `client_get_timelines` (client.py lines
251-258 and 313-320): the first session whose player shares the client's
machine identifier. -/
def sessionForClient (sessions : List PlexSession) (client : Player) :
    Option PlexSession :=
  sessions.find? (fun s =>
    match s.player with
    | some p =>
        match p.machineIdentifier, client.machineIdentifier with
        | some a, some b => a == b
        | _, _ => false
    | none => false)

/-- Build `session_data` from a matching session (client.py lines 260-272). -/
def mkSessionTimelineData (s : PlexSession) : Except PyErr SessionTimelineData := do
  let view_offset := s.viewOffset.getD 0
  let duration := s.duration.getD 0
  let progress ← timelinesProgress view_offset duration
  pure
    { state := match s.player with
        | some p => p.state.getD "Unknown"
        | none => "Unknown"
      time := view_offset
      duration := duration
      progress := progress
      title := s.title.getD "Unknown"
      type := s.type.getD "Unknown" }

/-- The session-fallback branch shared by the `timeline is None` case and the
bare `except Exception:` case (client.py lines 249-282 and 311-344):
`onNoSession` is the info / warning response returned when no session
matches. -/
def timelinesSessionFallback (sessions : List PlexSession) (client : Player)
    (onNoSession : ClientTimelineResponse) :
    Except PyErr (ToolResult ClientTimelineResponse) :=
  match sessionForClient sessions client with
  | some s => do
      let d ← mkSessionTimelineData s
      pure (.success { status := "success"
                       client_name := some client.title
                       source := some "session"
                       timeline := some (.fromSession d) })
  | none => pure (.success onNoSession)

/-- modules/client.py `client_get_timelines` (lines 195-347).  The bare
`except Exception:` around the timeline access (line 311) discards the
exception and falls back to session data or a warning response. -/
def client_get_timelines (w : ClientWorld) (client_name : String) :
    ToolResult ClientTimelineResponse :=
  toolHandler "Error getting client timeline: " (do
    let plex ← w.plexE
    let sessions := plex.sessions
    match timelinesLookup plex client_name with
    | none =>
        pure (.failure { message := "No client found matching '" ++ client_name ++ "'" })
    | some client =>
        match w.timelineOf client with
        | .error _ =>
            timelinesSessionFallback sessions client
              { status := "warning"
                message := some ("Unable to get timeline information for client '"
                   ++ client.title
                   ++ "'. The client may not be responding to timeline requests.")
                client_name := some client.title }
        | .ok none =>
            timelinesSessionFallback sessions client
              { status := "info"
                message := some ("Client '" ++ client.title
                   ++ "' is not currently playing any media.")
                client_name := some client.title }
        | .ok (some t) => do
            let progress ← timelinesProgress t.time t.duration
            pure (.success
              { status := "success"
                client_name := some client.title
                source := some "timeline"
                timeline := some (.fromTimeline
                  { type := t.type
                    state := t.state
                    time := t.time
                    duration := t.duration
                    progress := progress
                    key := t.key
                    ratingKey := t.ratingKey
                    playQueueItemID := t.playQueueItemID
                    playbackRate := t.playbackRate.getD 1
                    shuffled := t.shuffled.getD false
                    repeated := t.repeated.getD 0
                    muted := t.muted.getD false
                    volume := t.volume
                    title := t.title
                    guid := t.guid }) }))

/-- A world in which one client is connected, no session is active, and every
timeline request raises a connection error. -/
def timelinesFailWorld : ClientWorld :=
  { plexE := .ok { clients := [{ title := "Roku", machineIdentifier := some "m-1" }] }
    timelineOf := fun _ => .error "Connection refused" }

/-! ## client_control_playback (modules/client.py lines 602-744) -/

/-- A playback command issued to the client device.  `seekTo` carries the
value the Python code passes to `client.seekTo` (the raw `parameter` on the
"seekTo" action, a computed offset on "seekForward"/"seekBack"). -/
inductive PBCommand where
  | play
  | pause
  | stop
  | skipNext
  | skipPrevious
  | stepForward
  | stepBack
  | seekTo (offset : Option Int)
  | mute
  | unmute
  | setVolume (v : Int)
deriving Repr, DecidableEq

/-- client.py lines 618-632: the valid actions, in source order. -/
def valid_actions : List String :=
  ["play", "pause", "stop", "skipNext", "skipPrevious", "stepForward", "stepBack",
   "seekTo", "seekForward", "seekBack", "mute", "unmute", "setVolume"]

/-- client.py line 640. -/
def actions_needing_parameter : List String := ["seekTo", "setVolume"]

/-- client.py line 645. -/
def valid_media_types : List String := ["video", "music", "photo"]

/-- The client lookup of `client_control_playback` (client.py lines 652-660):
exact match, then substring match over regular clients only. -/
def controlLookup (plex : PlexServer) (name : String) : Option Player :=
  match plexClientExact plex name with
  | some c => some c
  | none => matchingClient plex.clients name

/-- The post-action timeline block of `client_control_playback` (client.py
lines 717-731): any exception or a None timeline leaves `timeline_data`
None. -/
structure ControlTimelineData where
  state : String
  time : Int
  duration : Int
  volume : Option Int := none
  muted : Option Bool := none
deriving Repr, DecidableEq

/-- types/models.py `SuccessResponse` (the fields `client_control_playback`
populates). -/
structure SuccessResponse where
  status : String
  message : String
  client : Option String := none
  action : Option String := none
  parameter : Option Int := none
  timeline : Option ControlTimelineData := none
deriving Repr, DecidableEq

/-- The success response built after an action, including the best-effort
timeline read (client.py lines 713-738). -/
def controlResponse (w : ClientWorld) (client : Player) (action : String)
    (parameter : Option Int) : SuccessResponse :=
  let timeline_data : Option ControlTimelineData :=
    match w.timelineOf client with
    | .ok (some t) =>
        some { state := t.state, time := t.time, duration := t.duration
               volume := t.volume, muted := t.muted }
    | _ => none
  { status := "success"
    message := "Successfully performed action '" ++ action ++ "' on client '"
       ++ client.title ++ "'"
    action := some action
    client := some client.title
    parameter := parameter
    timeline := timeline_data }

/-- The action dispatch of `client_control_playback` (client.py lines
669-741), returning the handler result together with the playback commands
issued to the client.  Commands are modelled as always succeeding; the seek
actions that read `client.timeline.time` first can still fail before any
command is issued, which the inner `except` turns into an error record. -/
def performAction (w : ClientWorld) (client : Player) (action : String)
    (parameter : Option Int) : ToolResult SuccessResponse × List PBCommand :=
  if action = "play" then
    (.success (controlResponse w client action parameter), [.play])
  else if action = "pause" then
    (.success (controlResponse w client action parameter), [.pause])
  else if action = "stop" then
    (.success (controlResponse w client action parameter), [.stop])
  else if action = "skipNext" then
    (.success (controlResponse w client action parameter), [.skipNext])
  else if action = "skipPrevious" then
    (.success (controlResponse w client action parameter), [.skipPrevious])
  else if action = "stepForward" then
    (.success (controlResponse w client action parameter), [.stepForward])
  else if action = "stepBack" then
    (.success (controlResponse w client action parameter), [.stepBack])
  else if action = "seekTo" then
    (.success (controlResponse w client action parameter), [.seekTo parameter])
  else if action = "seekForward" then
    match w.timelineOf client with
    | .error e =>
        (.failure { message := "Error controlling playback: " ++ e }, [])
    | .ok none =>
        (.failure { message :=
            "Error controlling playback: 'NoneType' object has no attribute 'time'" }, [])
    | .ok (some t) =>
        let seconds := parameter.getD 30
        (.success (controlResponse w client action parameter),
         [.seekTo (some (t.time + seconds * 1000))])
  else if action = "seekBack" then
    match w.timelineOf client with
    | .error e =>
        (.failure { message := "Error controlling playback: " ++ e }, [])
    | .ok none =>
        (.failure { message :=
            "Error controlling playback: 'NoneType' object has no attribute 'time'" }, [])
    | .ok (some t) =>
        let seconds := parameter.getD 30
        (.success (controlResponse w client action parameter),
         [.seekTo (some (max 0 (t.time - seconds * 1000)))])
  else if action = "mute" then
    (.success (controlResponse w client action parameter), [.mute])
  else if action = "unmute" then
    (.success (controlResponse w client action parameter), [.unmute])
  else if action = "setVolume" then
    match parameter with
    | none => (.failure { message := "Volume parameter is required" }, [])
    | some p =>
        if p < 0 ∨ p > 100 then
          (.failure { message := "Volume must be between 0 and 100" }, [])
        else
          (.success (controlResponse w client action parameter), [.setVolume p])
  else
    (.success (controlResponse w client action parameter), [])

/-- modules/client.py `client_control_playback` (lines 602-744), paired with
the list of playback commands it issues to the client device. -/
def client_control_playback (w : ClientWorld) (client_name action : String)
    (parameter : Option Int) (media_type : String := "video") :
    ToolResult SuccessResponse × List PBCommand :=
  match w.plexE with
  | .error e =>
      (.failure { message := "Error setting up playback control: " ++ e }, [])
  | .ok plex =>
      if action ∉ valid_actions then
        (.failure { message := "Invalid action '" ++ action
            ++ "'. Valid actions are: " ++ String.intercalate ", " valid_actions }, [])
      else if action ∈ actions_needing_parameter ∧ parameter = none then
        (.failure { message := "Action '" ++ action
            ++ "' requires a parameter value." }, [])
      else if media_type ∉ valid_media_types then
        (.failure { message := "Invalid media type '" ++ media_type
            ++ "'. Valid types are: " ++ String.intercalate ", " valid_media_types }, [])
      else
        match controlLookup plex client_name with
        | none =>
            (.failure { message := "No client found matching '" ++ client_name ++ "'" }, [])
        | some client =>
            if "playback" ∉ client.protocolCapabilities then
              (.failure { message := "Client '" ++ client.title
                  ++ "' does not support playback control." }, [])
            else
              performAction w client action parameter

/-- A world with one controllable client, for the C4 witness. -/
def controlWorld : ClientWorld :=
  { plexE := .ok { clients := [{ title := "Living Room TV"
                                 machineIdentifier := some "m-1"
                                 protocolCapabilities := ["playback"] }] }
    timelineOf := fun _ => .ok none }

/-! ## collection_create (modules/collection.py lines 116-226) -/

/-- types/models.py `PossibleMatch`. -/
structure PossibleMatch where
  title : String
  id : Int
  type : String
  year : Option Int := none
deriving Repr, DecidableEq, BEq

/-- An entry of the `not_found` list: a plain title / id string, or a dict
carrying a title and its possible matches. -/
inductive NotFoundEntry where
  | plain (s : String)
  | withMatches (title : String) (ms : List PossibleMatch)
deriving Repr, DecidableEq

/-- types/models.py `CollectionCreateResponse`. -/
structure CollectionCreateResponse where
  status : String := "success"
  created : Option Bool := none
  title : Option String := none
  id : Option Int := none
  library : Option String := none
  items_added : Option Nat := none
  items_not_found : Option (List String) := none
  possible_matches : Option (List PossibleMatch) := none
deriving Repr, DecidableEq

/-- plexapi `plex.library.section(name)`: exact (case-sensitive) title match,
`none` models the NotFound it raises otherwise. -/
def librarySectionExact (plex : PlexServer) (name : String) :
    Option LibrarySection :=
  plex.sections.find? (fun s => s.title == name)

/-- `item.year if hasattr(item, "year") and item.year else None`: the year
only when present and truthy. -/
def truthyYear : Option Int → Option Int
  | some v => if v ≠ 0 then some v else none
  | none => none

/-- The item-id resolution loop of `collection_create` (collection.py lines
156-165): fetched items in order, failures recorded as plain id strings. -/
def resolveIds (plex : PlexServer) (ids : List Int) :
    List MediaItem × List NotFoundEntry :=
  ids.foldl (fun acc id =>
    match plex.fetchItem id with
    | some item => (acc.1 ++ [item], acc.2)
    | none => (acc.1, acc.2 ++ [.plain (toString id)])) ([], [])

/-- The title resolution loop of `collection_create` (collection.py lines
167-194): exact (case-insensitive) matches are taken, otherwise the search
results become possible matches; an empty search records the plain title. -/
def resolveTitles (library : LibrarySection) (titles : List String)
    (acc0 : List MediaItem × List NotFoundEntry) :
    List MediaItem × List NotFoundEntry :=
  titles.foldl (fun acc title =>
    let search_results := library.search title
    if search_results.isEmpty then (acc.1, acc.2 ++ [.plain title])
    else
      match search_results.filter (fun i => pyLower i.title == pyLower title) with
      | exact :: _ => (acc.1 ++ [exact], acc.2)
      | [] =>
          let possible_matches := search_results.map (fun i =>
            ({ title := i.title, id := i.ratingKey, type := i.type
               year := truthyYear i.year } : PossibleMatch))
          (acc.1, acc.2 ++ [.withMatches title possible_matches])) acc0

/-- The dedup pass over `not_found` dict entries (collection.py lines
197-202). -/
def collectMatches (nf : List NotFoundEntry) : List PossibleMatch :=
  nf.foldl (fun acc e =>
    match e with
    | .withMatches _ ms =>
        ms.foldl (fun acc2 m => if acc2.contains m then acc2 else acc2 ++ [m]) acc
    | .plain _ => acc) []

/-- Does an entry come from the dict-shaped branch
(`isinstance(item, dict)`)? -/
def NotFoundEntry.isDict : NotFoundEntry → Bool
  | .withMatches _ _ => true
  | .plain _ => false

/-- The item-resolution and creation tail of `collection_create`
(collection.py lines 153-224), reached when the duplicate check found no
match or was skipped by its `except Exception: pass` guard. -/
def collectionCreateItems (plex : PlexServer) (library : LibrarySection)
    (collection_title library_name : String)
    (item_titles : Option (List String)) (item_ids : Option (List Int)) :
    ToolResult CollectionCreateResponse × List (String × List MediaItem) :=
  let afterIds := resolveIds plex (item_ids.getD [])
  let resolved := resolveTitles library (item_titles.getD []) afterIds
  let items := resolved.1
  let not_found := resolved.2
  if items.isEmpty ∧ not_found.any (fun e => e.isDict) then
    (.success { status := "error"
                possible_matches := some (collectMatches not_found) }, [])
  else if items.isEmpty then
    (.failure { message := "No matching media items found for the collection" }, [])
  else
    (.success { created := some true
                title := some collection_title
                id := some library.createdCollectionKey
                library := some library_name
                items_added := some items.length
                items_not_found := some (not_found.filterMap (fun e =>
                  match e with
                  | .plain s => some s
                  | .withMatches _ _ => none)) },
     [(collection_title, items)])

/-- modules/collection.py `collection_create` (lines 116-226), paired with
the list of `library.createCollection` calls performed (title and items).
The duplicate check is wrapped in `try: ... except Exception: pass`
(collection.py lines 141-151): when `library.collections()` raises, the
check is silently skipped and creation proceeds. -/
def collection_create (plexE : Except PyErr PlexServer)
    (collection_title library_name : String)
    (item_titles : Option (List String)) (item_ids : Option (List Int)) :
    ToolResult CollectionCreateResponse × List (String × List MediaItem) :=
  match plexE with
  | .error e => (.failure { message := e }, [])
  | .ok plex =>
      if (item_titles.getD []).isEmpty ∧ (item_ids.getD []).isEmpty then
        (.failure { message := "Either item_titles or item_ids must be provided" }, [])
      else
        match librarySectionExact plex library_name with
        | none =>
            (.failure { message := "Library '" ++ library_name ++ "' not found" }, [])
        | some library =>
            match library.collectionsRaises with
            | some _ =>
                collectionCreateItems plex library collection_title library_name
                  item_titles item_ids
            | none =>
                match library.collections.find?
                    (fun c => pyLower c.title == pyLower collection_title) with
                | some _ =>
                    (.failure { message := "Collection '" ++ collection_title
                        ++ "' already exists in library '" ++ library_name ++ "'" }, [])
                | none =>
                    collectionCreateItems plex library collection_title library_name
                      item_titles item_ids

/-- A server with one library that already holds a collection named
"Faves". -/
def favesSection : LibrarySection :=
  { title := "Movies", type := "movie", key := 1
    collections := [{ title := "Faves", ratingKey := 7 }] }

def favesServer : PlexServer := { sections := [favesSection] }

/-- The same library, but `library.collections()` raises during the duplicate
check; `plex.fetchItem(42)` resolves to a movie. -/
def flakySection : LibrarySection :=
  { title := "Movies", type := "movie", key := 1
    collections := [{ title := "Faves", ratingKey := 7 }]
    collectionsRaises := some "Connection reset by peer" }

def flakyServer : PlexServer :=
  { sections := [flakySection]
    fetchItem := fun id =>
      if id = 42 then some { title := "Alien", ratingKey := 42 } else none }

/-! ## In-flight SSE connection tracking (server.py lines 17-26 and 55-77)

`active_connections` is touched at exactly four places: `add` after the SSE
connection is accepted (line 66), `discard` in the `finally` block when the
handler finishes — normally or exceptionally — (line 75), and `cancel` on
each member followed by `clear` in the lifespan shutdown hook (lines 24-26).
The trace model has one event per such occurrence, plus a ghost `running` set
(which handlers are currently inside `connect_sse`) and a ghost `cancelled`
set (which tasks have been cancelled). -/

/-- An event over the connection-tracking state. -/
inductive ConnEvent where
  | start (t : Nat)
  | finish (t : Nat)
  | shutdown
deriving Repr, DecidableEq

/-- The tracked state: the `active_connections` set plus the two ghosts. -/
structure ConnState where
  active : Finset Nat
  running : Finset Nat
  cancelled : Finset Nat
deriving DecidableEq

/-- The effect of each event, transcribed from server.py:
`start` = `active_connections.add(task)` as the handler enters;
`finish` = `active_connections.discard(task)` in the `finally` as it leaves;
`shutdown` = `for task in list(active_connections): task.cancel()` then
`active_connections.clear()`. -/
def connStep (s : ConnState) : ConnEvent → ConnState
  | .start t => { s with active := insert t s.active, running := insert t s.running }
  | .finish t => { s with active := s.active.erase t, running := s.running.erase t }
  | .shutdown => { s with cancelled := s.cancelled ∪ s.active, active := ∅ }

/-- The empty initial state (module import time). -/
def connInit : ConnState := ⟨∅, ∅, ∅⟩

/-- Run a trace of connection events. -/
def connRun (evs : List ConnEvent) : ConnState := evs.foldl connStep connInit

/-! ## library_get_stats (modules/library.py lines 83-304)

The handler talks to the media server's REST API directly: the section
directory and one JSON `MediaContainer` per URL, held fixed in a `StatsEnv`.
The two `asyncio.gather` fan-outs are modelled by a completion schedule: the
requests finish in the order given by `sched`, each completion stores the
fixed response for its URL at its request index, and `gather` hands the
results back in request order.  Sequential execution is the schedule
`[0, 1]`. -/

/-- A section directory entry (`library/sections` response). -/
structure SectionDir where
  title : String
  key : String
  type : String
  totalSize : Option Nat := none
deriving Repr, DecidableEq

/-- One entry of a metadata item's `Media` list. -/
structure MediaEntryJson where
  audioCodec : Option String := none
deriving Repr, DecidableEq

/-- A metadata item of a `MediaContainer` (the fields the handler reads;
`genreTags`/`directorTags` are the `tag` values of the `Genre` / `Director`
lists). -/
structure MetaJson where
  ratingKey : Option String := none
  title : String := ""
  genreTags : List String := []
  directorTags : List String := []
  studio : Option String := none
  year : Option Int := none
  parentYear : Option Int := none
  parentTitle : Option String := none
  viewCount : Nat := 0
  media : List MediaEntryJson := []
deriving Repr, DecidableEq

/-- A `MediaContainer` response (`.get("size", 0)`, `.get("Metadata", [])`). -/
structure MediaContainer where
  size : Nat := 0
  metadata : List MetaJson := []
deriving Repr, DecidableEq

/-- The fixed set of REST responses the handler runs against. -/
structure StatsEnv where
  sections : List SectionDir := []
  fetch : String → MediaContainer := fun _ => {}

def sectionAllUrl (key : String) : String :=
  "library/sections/" ++ key ++ "/all"

def sectionUnwatchedUrl (key : String) : String :=
  "library/sections/" ++ key ++ "/all?unwatched=1"

def sectionSeasonsUrl (key : String) : String :=
  "library/sections/" ++ key ++ "/all?type=3"

def sectionEpisodesUrl (key : String) : String :=
  "library/sections/" ++ key ++ "/all?type=4"

def artistTracksUrl (key artistId : String) : String :=
  "library/sections/" ++ key ++ "/all?artist.id=" ++ artistId ++ "&type=10"

/-- Completion of gathered requests: process the completion events `sched`
left to right, each storing the fixed response for its request index. -/
def completeFrom (fetch : String → MediaContainer) (urls : List String)
    (acc : Nat → Option MediaContainer) : List Nat → Nat → Option MediaContainer
  | [], j => acc j
  | i :: rest, j =>
      completeFrom fetch urls
        (fun j2 => if j2 = i then some (fetch (urls.getD i "")) else acc j2) rest j

/-- The result `asyncio.gather` hands back at request index `j` under the
completion schedule `sched`. -/
def gatherGet (fetch : String → MediaContainer) (urls : List String)
    (sched : List Nat) (j : Nat) : MediaContainer :=
  (completeFrom fetch urls (fun _ => none) sched j).getD {}

/-- Python `d[k] = d.get(k, 0) + w` on an insertion-ordered dict. -/
def addWeight [BEq κ] (d : List (κ × Nat)) (k : κ) (w : Nat) : List (κ × Nat) :=
  if d.any (fun p => p.1 == k) then
    d.map (fun p => if p.1 == k then (p.1, p.2 + w) else p)
  else d ++ [(k, w)]

/-- Python `d[k] = w` on an insertion-ordered dict. -/
def setWeight [BEq κ] (d : List (κ × Nat)) (k : κ) (w : Nat) : List (κ × Nat) :=
  if d.any (fun p => p.1 == k) then
    d.map (fun p => if p.1 == k then (p.1, w) else p)
  else d ++ [(k, w)]

/-- `dict(sorted(d.items(), key=lambda x: x[1], reverse=True)[:n])`: stable
descending sort by count, first `n` entries. -/
def topN (n : Nat) (d : List (κ × Nat)) : List (κ × Nat) :=
  (d.mergeSort (fun a b => decide (b.2 ≤ a.2))).take n

/-- `dict(sorted(d.items()))` on integer keys. -/
def sortIntKeys (d : List (Int × Nat)) : List (Int × Nat) :=
  d.mergeSort (fun a b => decide (a.1 ≤ b.1))

/-- `dict(sorted(...)[:n]) if d else None`. -/
def optTop (n : Nat) (d : List (String × Nat)) : Option (List (String × Nat)) :=
  if d.isEmpty then none else some (topN n d)

/-- `dict(sorted(d.items())) if d else None`. -/
def optSortedInt (d : List (Int × Nat)) : Option (List (Int × Nat)) :=
  if d.isEmpty then none else some (sortIntKeys d)

/-- `d if d else None`. -/
def optDictStr (d : List (String × Nat)) : Option (List (String × Nat)) :=
  if d.isEmpty then none else some d

/-- `track.get("parentYear") or track.get("year")` with Python truthiness. -/
def pyOrOptInt (a b : Option Int) : Option Int :=
  match a with
  | some v => if v ≠ 0 then some v else b
  | none => b

/-- The movie-branch accumulators (library.py lines 123-144). -/
structure MovieAcc where
  genres : List (String × Nat) := []
  directors : List (String × Nat) := []
  studios : List (String × Nat) := []
  decades : List (Int × Nat) := []
deriving Repr, DecidableEq

/-- The movie-branch counting loop (library.py lines 128-144). -/
def movieFold (items : List MetaJson) : MovieAcc :=
  items.foldl (fun acc movie =>
    let acc := { acc with
      genres := movie.genreTags.foldl (fun g t => addWeight g t 1) acc.genres }
    let acc := { acc with
      directors := movie.directorTags.foldl (fun g t => addWeight g t 1) acc.directors }
    let acc := match movie.studio with
      | some s => if s ≠ "" then { acc with studios := addWeight acc.studios s 1 } else acc
      | none => acc
    match movie.year with
    | some y =>
        if y ≠ 0 then { acc with decades := addWeight acc.decades (Int.fdiv y 10 * 10) 1 }
        else acc
    | none => acc) {}

/-- The show-branch accumulators (library.py lines 173-189). -/
structure ShowAcc where
  genres : List (String × Nat) := []
  studios : List (String × Nat) := []
  decades : List (Int × Nat) := []
deriving Repr, DecidableEq

/-- The show-branch counting loop (library.py lines 177-189). -/
def showFold (items : List MetaJson) : ShowAcc :=
  items.foldl (fun acc item =>
    let acc := { acc with
      genres := item.genreTags.foldl (fun g t => addWeight g t 1) acc.genres }
    let acc := match item.studio with
      | some s => if s ≠ "" then { acc with studios := addWeight acc.studios s 1 } else acc
      | none => acc
    match item.year with
    | some y =>
        if y ≠ 0 then { acc with decades := addWeight acc.decades (Int.fdiv y 10 * 10) 1 }
        else acc
    | none => acc) {}

/-- The artist-branch accumulators (library.py lines 209-217). -/
structure ArtistAcc where
  total_tracks : Nat := 0
  total_albums : Nat := 0
  total_plays : Nat := 0
  all_genres : List (String × Nat) := []
  all_years : List (Int × Nat) := []
  top_artists : List (String × Nat) := []
  top_albums : List (String × Nat) := []
  audio_formats : List (String × Nat) := []
deriving Repr, DecidableEq

/-- One track of the per-artist loop (library.py lines 239-270), threading
the global accumulators with the per-artist view count, album set and track
count. -/
def artistTrackStep (artist_name : String)
    (st : ArtistAcc × Nat × List String × Nat) (track : MetaJson) :
    ArtistAcc × Nat × List String × Nat :=
  let acc := st.1
  let artist_view_count := st.2.1
  let artist_albums := st.2.2.1
  let artist_track_count := st.2.2.2
  let track_views := track.viewCount
  let acc := { acc with total_plays := acc.total_plays + track_views }
  let albumStep : ArtistAcc × List String :=
    match track.parentTitle with
    | some album_title =>
        if album_title ≠ "" then
          let albums2 := if artist_albums.contains album_title then artist_albums
                         else artist_albums ++ [album_title]
          let album_key := artist_name ++ " - " ++ album_title
          ({ acc with top_albums := addWeight acc.top_albums album_key track_views },
           albums2)
        else (acc, artist_albums)
    | none => (acc, artist_albums)
  let acc := albumStep.1
  let artist_albums := albumStep.2
  let acc := { acc with
    all_genres := track.genreTags.foldl (fun g t => addWeight g t 1) acc.all_genres }
  let acc := match pyOrOptInt track.parentYear track.year with
    | some y => if y ≠ 0 then { acc with all_years := addWeight acc.all_years y 1 } else acc
    | none => acc
  let acc := match track.media with
    | m :: _ =>
        match m.audioCodec with
        | some codec => { acc with audio_formats := addWeight acc.audio_formats codec 1 }
        | none => acc
    | [] => acc
  (acc, artist_view_count + track_views, artist_albums, artist_track_count + 1)

/-- One artist of the artist-branch loop (library.py lines 219-276); the
tracks come from a sequential per-artist REST request. -/
def artistStep (env : StatsEnv) (section_id : String) (acc : ArtistAcc)
    (artist : MetaJson) : ArtistAcc :=
  match artist.ratingKey with
  | none => acc
  | some artist_id =>
      if artist_id = "" then acc
      else
        let artist_name := artist.title
        let tracks := (env.fetch (artistTracksUrl section_id artist_id)).metadata
        let stepped := tracks.foldl (artistTrackStep artist_name) (acc, 0, [], 0)
        let acc2 := stepped.1
        let artist_view_count := stepped.2.1
        let artist_albums := stepped.2.2.1
        let artist_track_count := stepped.2.2.2
        let acc3 :=
          if artist_track_count > 0 then
            { acc2 with top_artists := setWeight acc2.top_artists artist_name artist_view_count }
          else acc2
        { acc3 with total_tracks := acc3.total_tracks + artist_track_count
                    total_albums := acc3.total_albums + artist_albums.length }

/-- types/models.py `MovieStats` (lines 357-365). -/
structure MovieStats where
  count : Nat
  unwatched : Nat
  top_genres : Option (List (String × Nat)) := none
  top_directors : Option (List (String × Nat)) := none
  top_studios : Option (List (String × Nat)) := none
  by_decade : Option (List (Int × Nat)) := none
deriving Repr, DecidableEq

/-- The `MovieStats(...)` call (library.py lines 146-153): the four dict
kwargs are camelCase while the declared optional fields are snake_case, so
pydantic's default config silently ignores them and those fields keep their
None defaults; both required fields are supplied, so construction succeeds. -/
def mkMovieStats_libraryGetStats (count unwatched : Nat)
    (_topGenres _topDirectors _topStudios : Option (List (String × Nat)))
    (_byDecade : Option (List (Int × Nat))) : Except PyErr MovieStats :=
  pydanticInit "MovieStats" ["count", "unwatched"]
    ["count", "unwatched", "topGenres", "topDirectors", "topStudios", "byDecade"]
    { count := count, unwatched := unwatched }

/-- types/models.py `ShowStats` (lines 368-377). -/
structure ShowStats where
  shows : Nat
  seasons : Nat
  episodes : Nat
  unwatched_shows : Nat
  top_genres : Option (List (String × Nat)) := none
  top_studios : Option (List (String × Nat)) := none
  by_decade : Option (List (Int × Nat)) := none
deriving Repr, DecidableEq

/-- The `ShowStats(...)` call (library.py lines 191-199): passes
`unwatchedShows` while the declared field `unwatched_shows` is required, so
it raises a ValidationError. -/
def mkShowStats_libraryGetStats (shows seasons episodes unwatchedShows : Nat)
    (_topGenres _topStudios : Option (List (String × Nat)))
    (_byDecade : Option (List (Int × Nat))) : Except PyErr ShowStats :=
  pydanticInit "ShowStats" ["shows", "seasons", "episodes", "unwatched_shows"]
    ["shows", "seasons", "episodes", "unwatchedShows", "topGenres", "topStudios",
     "byDecade"]
    { shows := shows, seasons := seasons, episodes := episodes
      unwatched_shows := unwatchedShows }

/-- types/models.py `MusicStats` (lines 380-391). -/
structure MusicStats where
  count : Nat
  total_tracks : Nat
  total_albums : Nat
  total_plays : Nat
  top_genres : Option (List (String × Nat)) := none
  top_artists : Option (List (String × Nat)) := none
  top_albums : Option (List (String × Nat)) := none
  by_year : Option (List (Int × Nat)) := none
  audio_formats : Option (List (String × Nat)) := none
deriving Repr, DecidableEq

/-- The `MusicStats(...)` call (library.py lines 278-288): passes
`totalTracks` / `totalAlbums` / `totalPlays` while the declared fields
`total_tracks` / `total_albums` / `total_plays` are required, so it raises a
ValidationError. -/
def mkMusicStats_libraryGetStats (count totalTracks totalAlbums totalPlays : Nat)
    (_topGenres _topArtists _topAlbums : Option (List (String × Nat)))
    (_byYear : Option (List (Int × Nat)))
    (_audioFormats : Option (List (String × Nat))) : Except PyErr MusicStats :=
  pydanticInit "MusicStats" ["count", "total_tracks", "total_albums", "total_plays"]
    ["count", "totalTracks", "totalAlbums", "totalPlays", "topGenres", "topArtists",
     "topAlbums", "byYear", "audioFormats"]
    { count := count, total_tracks := totalTracks, total_albums := totalAlbums
      total_plays := totalPlays }

/-- types/models.py `LibraryStatsResponse` (lines 394-403). -/
structure LibraryStatsResponse where
  name : String
  type : String
  total_items : Nat
  movie_stats : Option MovieStats := none
  show_stats : Option ShowStats := none
  music_stats : Option MusicStats := none
deriving Repr, DecidableEq

/-- The `LibraryStatsResponse(...)` calls (library.py lines 155-160, 201-206,
290-295 and 297-301): all four pass `totalItems=` while the declared field
`total_items` is required, so every one raises a ValidationError;
`statsKwarg` is the branch's extra camelCase keyword, and the value argument
records what the intended snake_case call would build (it is never
returned). -/
def mkLibraryStatsResponse_libraryGetStats (name ty : String) (totalItems : Nat)
    (statsKwarg : Option String) (movieStats : Option MovieStats)
    (showStats : Option ShowStats) (musicStats : Option MusicStats) :
    Except PyErr LibraryStatsResponse :=
  pydanticInit "LibraryStatsResponse" ["name", "type", "total_items"]
    (["name", "type", "totalItems"]
      ++ (match statsKwarg with | some k => [k] | none => []))
    { name := name, type := ty, total_items := totalItems
      movie_stats := movieStats, show_stats := showStats, music_stats := musicStats }

/-- The per-type branches of `library_get_stats` (library.py lines 122-301),
after the all/unwatched fan-out; the show branch performs its own gather of
the seasons and episodes requests under schedule `sched2`. -/
def statsBranches (env : StatsEnv) (sec : SectionDir)
    (all_data unwatched_data : MediaContainer) (sched2 : List Nat) :
    Except PyErr (ToolResult LibraryStatsResponse) :=
  if sec.type = "movie" then do
    let acc := movieFold all_data.metadata
    let movie_stats ← mkMovieStats_libraryGetStats all_data.size unwatched_data.size
      (optTop 5 acc.genres) (optTop 5 acc.directors) (optTop 5 acc.studios)
      (optSortedInt acc.decades)
    let resp ← mkLibraryStatsResponse_libraryGetStats sec.title sec.type
      (sec.totalSize.getD 0) (some "movieStats") (some movie_stats) none none
    pure (.success resp)
  else if sec.type = "show" then do
    let urls2 := [sectionSeasonsUrl sec.key, sectionEpisodesUrl sec.key]
    let seasons_data := gatherGet env.fetch urls2 sched2 0
    let episodes_data := gatherGet env.fetch urls2 sched2 1
    let acc := showFold all_data.metadata
    let show_stats ← mkShowStats_libraryGetStats all_data.size seasons_data.size
      episodes_data.size unwatched_data.size (optTop 5 acc.genres)
      (optTop 5 acc.studios) (optSortedInt acc.decades)
    let resp ← mkLibraryStatsResponse_libraryGetStats sec.title sec.type
      (sec.totalSize.getD 0) (some "showStats") none (some show_stats) none
    pure (.success resp)
  else if sec.type = "artist" then do
    let acc := all_data.metadata.foldl (artistStep env sec.key) {}
    let music_stats ← mkMusicStats_libraryGetStats all_data.size acc.total_tracks
      acc.total_albums acc.total_plays (optTop 10 acc.all_genres)
      (optTop 10 acc.top_artists) (optTop 10 acc.top_albums)
      (optSortedInt acc.all_years) (optDictStr acc.audio_formats)
    let resp ← mkLibraryStatsResponse_libraryGetStats sec.title sec.type
      (sec.totalSize.getD 0) (some "musicStats") none none (some music_stats)
    pure (.success resp)
  else do
    let resp ← mkLibraryStatsResponse_libraryGetStats sec.title sec.type
      (sec.totalSize.getD 0) none none none none
    pure (.success resp)

/-- modules/library.py `library_get_stats` (lines 83-304).  `sched1` is the
completion schedule of the all/unwatched gather, `sched2` that of the show
branch's seasons/episodes gather; `[0, 1]` is sequential execution. -/
def library_get_stats (env : StatsEnv) (library_name : String)
    (sched1 sched2 : List Nat) : ToolResult LibraryStatsResponse :=
  toolHandler "Error getting library stats: " (do
    match env.sections.find? (fun s => pyLower s.title == pyLower library_name) with
    | none =>
        pure (.failure { message := "Library '" ++ library_name ++ "' not found" })
    | some target_section => do
        let urls1 := [sectionAllUrl target_section.key,
                      sectionUnwatchedUrl target_section.key]
        let all_data := gatherGet env.fetch urls1 sched1 0
        let unwatched_data := gatherGet env.fetch urls1 sched1 1
        statsBranches env target_section all_data unwatched_data sched2)

/-- A fixed-response environment with one movie section. -/
def statsEnvW : StatsEnv :=
  { sections := [{ title := "Movies", key := "1", type := "movie", totalSize := some 2 }]
    fetch := fun u =>
      if u = sectionAllUrl "1" then { size := 2 }
      else if u = sectionUnwatchedUrl "1" then { size := 1 }
      else {} }

end PlexSpec

namespace PlexSpec

/-- **C1** (code bug): with exactly two connected client devices and no
sessions, `client_list` called with its default `include_details=True` does
NOT return a success record of count 2: building each `ClientInfo` passes the
keywords `machineIdentifier` / `protocolCapabilities` while the model's
declared fields are `machine_identifier` / `protocol_capabilities`, so
pydantic raises a ValidationError which the handler boundary converts into an
`ErrorResponse`.  With `include_details=False` (no `ClientInfo` built) the
counting logic does return a success record with count 2, which shows the
intended behaviour the spec describes. -/
theorem C1_client_list_two_clients_errors :
    client_list (.ok twoClientServer) true
      = .failure { status := "error"
                   message := "Error listing clients: validation error for ClientInfo: missing required fields machine_identifier, protocol_capabilities" }
    ∧ client_list (.ok twoClientServer) false
      = .success { status := "success"
                   message := "Found 2 connected clients"
                   count := 2
                   clients := .titles ["Living Room TV", "Bedroom Roku"] } := by
  constructor
  · rfl
  · rfl

/-- **C3** (code bug): with at least one library section, `library_list` does
NOT return the per-section map: the `LibraryInfo(...)` call passes keywords
`libraryId` / `totalSize` / `updatedAt` while the model's declared required
fields are `library_id` / `total_size` / `updated_at`, so pydantic raises a
ValidationError which the boundary converts into an `ErrorResponse`.  The
empty-server branch does return the message the claim states. -/
theorem C3_library_list_one_section_errors :
    library_list (.ok oneSectionServer)
      = .failure { status := "error"
                   message := "Error listing libraries: validation error for LibraryInfo: missing required fields library_id, total_size, updated_at" }
    ∧ library_list (.ok { sections := [] })
      = .success { libraries := none
                   message := some "No libraries found on your Plex server." } := by
  constructor
  · rfl
  · rfl

/-- **C8**: for the HTTP transport entry point, the listen host defaults to
"0.0.0.0" and the port to 3001 when the corresponding environment variables
are unset, and debug mode is enabled iff `FASTMCP_DEBUG` is exactly the
string "True" (any other value, "true" included, leaves it disabled). -/
theorem C8_entry_point_defaults (env : Environ) :
    (env "FASTMCP_HOST" = none → mainHost env = "0.0.0.0")
    ∧ (env "FASTMCP_PORT" = none → mainPort env = .ok 3001)
    ∧ (fastmcpDebug env = true ↔ env "FASTMCP_DEBUG" = some "True") := by
  refine ⟨fun h => ?_, fun h => ?_, ?_⟩
  · simp [mainHost, environGetD, h]
  · rw [mainPort, environGetD, h]
    rfl
  · unfold fastmcpDebug environGetD
    cases hv : env "FASTMCP_DEBUG" with
    | none => simp
    | some v =>
        simp only [Option.getD_some]
        constructor
        · intro hb
          have : v = "True" := by
            have := (beq_iff_eq (a := v) (b := "True")).mp hb
            exact this
          simp [this]
        · intro hs
          have hv2 : v = "True" := by
            injection hs
          simp [hv2]

/-- Witness for C8 at the empty environment and at `FASTMCP_DEBUG=true`
(lower case): host and port take their defaults, debug stays disabled. -/
theorem C8_entry_point_defaults_witness :
    mainHost (fun _ => none) = "0.0.0.0"
    ∧ mainPort (fun _ => none) = .ok 3001
    ∧ fastmcpDebug (fun k => if k = "FASTMCP_DEBUG" then some "true" else none) = false := by
  refine ⟨(C8_entry_point_defaults (fun _ => none)).1 rfl,
          (C8_entry_point_defaults (fun _ => none)).2.1 rfl, ?_⟩
  have h := (C8_entry_point_defaults
    (fun k => if k = "FASTMCP_DEBUG" then some "true" else none)).2.2
  by_contra hb
  simp only [Bool.not_eq_false] at hb
  have := h.mp hb
  simp at this

/-- **C9**: every playback-progress percentage computed by the handlers is
guarded against division by zero: in `client_get_timelines`,
`client_get_active` and `sessions_get_active` the view offset is divided by
the duration only under a non-zero-duration guard, and otherwise progress is
reported as 0 or omitted, so none of the three progress computations ever
raises ZeroDivisionError, for any inputs. -/
theorem C9_progress_never_divides_by_zero :
    (∀ v d : Int, ∃ q, timelinesProgress v d = .ok q)
    ∧ (∀ v d : Option Int, ∃ p, activeClientProgress v d = .ok p)
    ∧ (∀ v d : Option Int, ∃ p, sessionProgress v d = .ok p) := by
  refine ⟨fun v d => ?_, fun v d => ?_, fun v d => ?_⟩
  · rcases eq_or_ne d 0 with h0 | h0
    · subst h0
      exact ⟨pyRoundTo 2 0, rfl⟩
    · have hc : (d : ℚ) ≠ 0 := Int.cast_ne_zero.mpr h0
      refine ⟨pyRoundTo 2 (((v : ℚ) / (d : ℚ)) * 100), ?_⟩
      simp [timelinesProgress, h0, qdiv, hc]
  · match v, d with
    | some v, some d =>
        rcases eq_or_ne d 0 with h0 | h0
        · subst h0
          exact ⟨none, rfl⟩
        · have hc : (d : ℚ) ≠ 0 := Int.cast_ne_zero.mpr h0
          refine ⟨some (pyRoundTo 1 (((v : ℚ) / (d : ℚ)) * 100)), ?_⟩
          simp [activeClientProgress, h0, qdiv, hc]
    | some v, none => exact ⟨none, rfl⟩
    | none, some d => exact ⟨none, rfl⟩
    | none, none => exact ⟨none, rfl⟩
  · match v, d with
    | some v, some d =>
        by_cases hd : 0 < d
        · have hdz : (d : ℚ) ≠ 0 := by
            have : (0 : ℚ) < (d : ℚ) := by exact_mod_cast hd
            exact ne_of_gt this
          refine ⟨some { percent := pyRoundTo 1 (((v : ℚ) / (d : ℚ)) * 100)
                         minutes_remaining :=
                           if ((d : ℚ) - (v : ℚ)) / 1000 / 60 > 1
                           then ⌊((d : ℚ) - (v : ℚ)) / 1000 / 60⌋ else 0 }, ?_⟩
          simp [sessionProgress, hd, qdiv, hdz]
          rfl
        · refine ⟨none, ?_⟩
          simp [sessionProgress, hd]
          rfl
    | some v, none => exact ⟨none, rfl⟩
    | none, some d => exact ⟨none, rfl⟩
    | none, none => exact ⟨none, rfl⟩

/-- `Except` bind on a success reduces. -/
@[simp] theorem exceptOkBind (a : α) (f : α → Except ε β) :
    (Except.ok a >>= f) = f a := rfl

/-- `Except` bind on an error propagates the error. -/
@[simp] theorem exceptErrorBind (e : ε) (f : α → Except ε β) :
    ((Except.error e : Except ε α) >>= f) = Except.error e := rfl

/-- `pure` into `Except` is `ok`. -/
@[simp] theorem exceptPure (a : α) : (pure a : Except ε α) = Except.ok a := rfl

/-- Loop invariant of `sessionsLoop`: each processed session is classified
into exactly one of the two counters and contributes exactly one entry. -/
theorem sessionsLoop_invariant :
    ∀ (ss : List PlexSession) (i : Nat) (data : List SessionInfo) (t d : Nat)
      (b : Int) (out : List SessionInfo × Nat × Nat × Int),
      sessionsLoop ss i data t d b = .ok out →
      out.2.1 + out.2.2.1 = t + d + ss.length
        ∧ out.1.length = data.length + ss.length := by
  intro ss
  induction ss with
  | nil =>
      intro i data t d b out h
      simp only [sessionsLoop] at h
      cases h
      simp
  | cons s rest ih =>
      intro i data t d b out h
      simp only [sessionsLoop] at h
      cases hb : buildSessionInfo i s with
      | error e => rw [hb] at h; cases h
      | ok info =>
          rw [hb] at h
          by_cases he : s.transcodeSessions.isEmpty
          · simp only [he, if_true, Except.bind] at h
            have := ih (i + 1) (data ++ [info]) t (d + 1)
              (b + bitrateContribution s) out h
            constructor
            · rw [this.1]; simp [List.length_cons]; omega
            · rw [this.2]; simp [List.length_cons]; omega
          · simp only [he, if_false, Except.bind] at h
            have := ih (i + 1) (data ++ [info]) (t + 1) d
              (b + bitrateContribution s) out h
            constructor
            · rw [this.1]; simp [List.length_cons]; omega
            · rw [this.2]; simp [List.length_cons]; omega

/-- **C10**: whenever `sessions_get_active` returns a success response for a
non-empty session list, `transcode_count + direct_play_count =
sessions_count` (each session is classified into exactly one category), and
`sessions_count` equals the length of the returned sessions list (and of the
reported session list). -/
theorem C10_session_counts (plex : PlexServer) (r : SessionsActiveResponse)
    (hne : plex.sessions ≠ [])
    (hs : sessions_get_active (.ok plex) = .success r) :
    (∃ t u, r.transcode_count = some t ∧ r.direct_play_count = some u
        ∧ t + u = r.sessions_count)
    ∧ r.sessions_count = r.sessions.length
    ∧ r.sessions_count = plex.sessions.length := by
  have hl : plex.sessions.isEmpty = false := by
    cases hl2 : plex.sessions.isEmpty
    · rfl
    · exact absurd (List.isEmpty_iff.mp hl2) hne
  have key : sessions_get_active (.ok plex)
      = (match sessionsLoop plex.sessions 1 [] 0 0 0 with
         | .ok out =>
             .success { status := "success"
                        message := "Found " ++ toString plex.sessions.length
                           ++ " active sessions"
                        sessions_count := plex.sessions.length
                        transcode_count := some out.2.1
                        direct_play_count := some out.2.2.1
                        total_bitrate_kbps := some out.2.2.2
                        sessions := out.1 }
         | .error e =>
             .failure { status := "error"
                        message := "Error getting active sessions: " ++ e }) := by
    simp only [sessions_get_active, toolHandler, exceptOkBind, hl]
    cases hloop : sessionsLoop plex.sessions 1 [] 0 0 0 with
    | error e => simp
    | ok out => simp
  rw [key] at hs
  cases hloop : sessionsLoop plex.sessions 1 [] 0 0 0 with
  | error e => rw [hloop] at hs; cases hs
  | ok out =>
      rw [hloop] at hs
      have hinv := sessionsLoop_invariant plex.sessions 1 [] 0 0 0 out hloop
      cases hs
      refine ⟨⟨out.2.1, out.2.2.1, rfl, rfl, ?_⟩, ?_, rfl⟩
      · have h1 := hinv.1
        simpa using h1
      · have h2 := hinv.2
        simp only [List.length_nil, Nat.zero_add] at h2
        simp [h2]

/-- Witness for C10: one direct-play session, counts 0 + 1 = 1. -/
theorem C10_session_counts_witness :
    ∃ r, sessions_get_active (.ok oneSessionServer) = .success r
      ∧ ((∃ t u, r.transcode_count = some t ∧ r.direct_play_count = some u
            ∧ t + u = r.sessions_count)
         ∧ r.sessions_count = r.sessions.length
         ∧ r.sessions_count = oneSessionServer.sessions.length) :=
  ⟨_, rfl, C10_session_counts oneSessionServer _ (List.cons_ne_nil _ _) rfl⟩

/-- **C2** (counterexample): the claim says every exception raised by the
client library anywhere inside a handler body yields an error record carrying
the exception text.  In `client_get_timelines` the bare `except Exception:`
around the timeline access discards the exception: with one connected client,
no sessions, and `client.timeline` raising "Connection refused", the handler
returns a record with status "warning" (not "error") whose message does not
contain the exception text. -/
theorem C2_timelines_swallows_exception :
    client_get_timelines timelinesFailWorld "Roku"
      = .success { status := "warning"
                   message := some "Unable to get timeline information for client 'Roku'. The client may not be responding to timeline requests."
                   client_name := some "Roku" }
    ∧ (client_get_timelines timelinesFailWorld "Roku").isErrorRecord = false :=
  ⟨rfl, rfl⟩

/-- **C2** (amended): every exception that reaches a tool handler's outermost
boundary is caught and converted into an error record with status "error"
whose message is the handler's prefix followed by the exception text (so it
contains the exception text), and no exception propagates out of a handler
(each embedded handler is a total function into `ToolResult`); however, some
handlers catch specific inner exceptions themselves and return non-error
fallback responses. -/
theorem C2_handler_boundary :
    (∀ (α : Type) (pre : String) (body : Except PyErr (ToolResult α)) (e : PyErr),
        body = .error e →
        toolHandler pre body = .failure { status := "error", message := pre ++ e })
    ∧ (∀ (e : PyErr) (incl : Bool),
        client_list (.error e) incl
          = .failure { status := "error", message := "Error listing clients: " ++ e })
    ∧ (∀ e : PyErr,
        sessions_get_active (.error e)
          = .failure { status := "error"
                       message := "Error getting active sessions: " ++ e })
    ∧ (∀ e : PyErr,
        library_list (.error e)
          = .failure { status := "error", message := "Error listing libraries: " ++ e })
    ∧ (∀ e : PyErr,
        client_get_active (.error e)
          = .failure { status := "error"
                       message := "Error getting active clients: " ++ e }) := by
  refine ⟨fun α pre body e h => ?_, fun e incl => rfl, fun e => rfl, fun e => rfl,
    fun e => rfl⟩
  subst h
  rfl

/-- Witness for the amended C2 at a concrete exception. -/
theorem C2_handler_boundary_witness :
    toolHandler "Error listing clients: "
        (Except.error "boom" : Except PyErr (ToolResult ClientListResponse))
      = .failure { status := "error", message := "Error listing clients: boom" } :=
  C2_handler_boundary.1 ClientListResponse "Error listing clients: "
    (Except.error "boom") "boom" rfl

/-- **C4**: for every invocation of `client_control_playback`, if the action
is not one of the 13 valid actions, or is seekTo/setVolume with a None
parameter, or the media type is not video/music/photo, or is setVolume with a
parameter outside 0..100, the handler returns an error record and issues no
playback command to the client. -/
theorem C4_control_playback_validation
    (w : ClientWorld) (client_name action : String) (parameter : Option Int)
    (media_type : String)
    (h : action ∉ valid_actions
       ∨ (action ∈ actions_needing_parameter ∧ parameter = none)
       ∨ media_type ∉ valid_media_types
       ∨ (action = "setVolume" ∧ ∃ p, parameter = some p ∧ (p < 0 ∨ p > 100))) :
    (∃ msg, (client_control_playback w client_name action parameter media_type).1
        = .failure { status := "error", message := msg })
    ∧ (client_control_playback w client_name action parameter media_type).2 = [] := by
  unfold client_control_playback
  cases hpe : w.plexE with
  | error e => exact ⟨⟨_, rfl⟩, rfl⟩
  | ok plex =>
      dsimp only
      by_cases h1 : action ∈ valid_actions
      · by_cases h2 : action ∈ actions_needing_parameter ∧ parameter = none
        · rw [if_neg (not_not_intro h1), if_pos h2]
          exact ⟨⟨_, rfl⟩, rfl⟩
        · by_cases h3 : media_type ∈ valid_media_types
          · have h4 : action = "setVolume"
                ∧ ∃ p, parameter = some p ∧ (p < 0 ∨ p > 100) := by
              rcases h with h | h | h | h
              · exact absurd h1 h
              · exact absurd h h2
              · exact absurd h3 h
              · exact h
            obtain ⟨ha, p, hp, hrange⟩ := h4
            subst ha
            subst hp
            rw [if_neg (not_not_intro h1), if_neg h2, if_neg (not_not_intro h3)]
            cases hcl : controlLookup plex client_name with
            | none => exact ⟨⟨_, rfl⟩, rfl⟩
            | some client =>
                dsimp only
                by_cases h5 : "playback" ∈ client.protocolCapabilities
                · rw [if_neg (not_not_intro h5)]
                  refine ⟨⟨"Volume must be between 0 and 100", ?_⟩, ?_⟩
                  · simp [performAction, hrange]
                  · simp [performAction, hrange]
                · rw [if_pos h5]
                  exact ⟨⟨_, rfl⟩, rfl⟩
          · rw [if_neg (not_not_intro h1), if_neg h2, if_pos h3]
            exact ⟨⟨_, rfl⟩, rfl⟩
      · rw [if_pos h1]
        exact ⟨⟨_, rfl⟩, rfl⟩

/-- Witness for C4 at the invalid action "jump" against a world with a
controllable client. -/
theorem C4_control_playback_validation_witness :
    ("jump" ∉ valid_actions)
    ∧ ((∃ msg,
          (client_control_playback controlWorld "Living Room TV" "jump" none "video").1
            = .failure { status := "error", message := msg })
       ∧ (client_control_playback controlWorld "Living Room TV" "jump" none "video").2
            = []) :=
  ⟨by decide,
   C4_control_playback_validation controlWorld "Living Room TV" "jump" none "video"
     (Or.inl (by decide))⟩

/-- **C7** (counterexample): a collection case-insensitively matching "FAVES"
already exists in the library, but `library.collections()` raises during the
duplicate check, so the `except Exception: pass` guard (collection.py lines
150-151) silently skips the check, creation proceeds, and the duplicate
collection is created — refuting the claim as stated. -/
theorem C7_collection_create_creates_duplicate :
    (∃ c ∈ flakySection.collections, pyLower c.title = pyLower "FAVES")
    ∧ collection_create (.ok flakyServer) "FAVES" "Movies" none (some [42])
        = (.success { status := "success"
                      created := some true
                      title := some "FAVES"
                      id := some 0
                      library := some "Movies"
                      items_added := some 1
                      items_not_found := some [] },
           [("FAVES", [{ title := "Alien", ratingKey := 42 }])]) :=
  ⟨⟨{ title := "Faves", ratingKey := 7 }, by simp [flakySection], by decide⟩, rfl⟩

/-- **C7** (amended): `collection_create` returns an error record and creates
nothing when (a) both `item_titles` and `item_ids` are missing or empty, and
(b) when a collection whose title matches `collection_title`
case-insensitively already exists in the named library and the
`library.collections()` listing call of the duplicate check succeeds (the
check is wrapped in `except Exception: pass`, so a duplicate is created when
that call raises). -/
theorem C7_collection_create_guards
    (plexE : Except PyErr PlexServer) (collection_title library_name : String)
    (item_titles : Option (List String)) (item_ids : Option (List Int)) :
    (((item_titles.getD []).isEmpty ∧ (item_ids.getD []).isEmpty) →
       (∃ msg,
          (collection_create plexE collection_title library_name item_titles item_ids).1
            = .failure { status := "error", message := msg })
       ∧ (collection_create plexE collection_title library_name item_titles item_ids).2
            = [])
    ∧ (∀ plex library,
        plexE = .ok plex →
        librarySectionExact plex library_name = some library →
        library.collectionsRaises = none →
        (∃ c ∈ library.collections,
            pyLower c.title = pyLower collection_title) →
       (∃ msg,
          (collection_create plexE collection_title library_name item_titles item_ids).1
            = .failure { status := "error", message := msg })
       ∧ (collection_create plexE collection_title library_name item_titles item_ids).2
            = []) := by
  constructor
  · intro hempty
    unfold collection_create
    cases plexE with
    | error e => exact ⟨⟨e, rfl⟩, rfl⟩
    | ok plex =>
        dsimp only
        rw [if_pos hempty]
        exact ⟨⟨_, rfl⟩, rfl⟩
  · intro plex library hpe hsec hnr hdup
    subst hpe
    unfold collection_create
    dsimp only
    by_cases hempty : (item_titles.getD []).isEmpty ∧ (item_ids.getD []).isEmpty
    · rw [if_pos hempty]
      exact ⟨⟨_, rfl⟩, rfl⟩
    · rw [if_neg hempty, hsec]
      dsimp only
      rw [hnr]
      dsimp only
      cases hf : library.collections.find?
          (fun c => pyLower c.title == pyLower collection_title) with
      | some c => exact ⟨⟨_, rfl⟩, rfl⟩
      | none =>
          exfalso
          obtain ⟨c, hc, heq⟩ := hdup
          have := List.find?_eq_none.mp hf c hc
          exact this (by simp [heq])

/-- Witness for C7: part (a) with no items given, part (b) with an existing
"Faves" collection matched case-insensitively by "FAVES" while the listing
call succeeds. -/
theorem C7_collection_create_guards_witness :
    (((none : Option (List String)).getD []).isEmpty
       ∧ ((none : Option (List Int)).getD []).isEmpty)
    ∧ ((∃ msg, (collection_create (.ok favesServer) "New" "Movies" none none).1
          = .failure { status := "error", message := msg })
       ∧ (collection_create (.ok favesServer) "New" "Movies" none none).2 = [])
    ∧ ((∃ msg,
          (collection_create (.ok favesServer) "FAVES" "Movies" (some ["Alien"]) none).1
            = .failure { status := "error", message := msg })
       ∧ (collection_create (.ok favesServer) "FAVES" "Movies" (some ["Alien"]) none).2
            = []) := by
  refine ⟨⟨rfl, rfl⟩, ?_, ?_⟩
  · exact (C7_collection_create_guards (.ok favesServer) "New" "Movies" none none).1
      ⟨rfl, rfl⟩
  · exact (C7_collection_create_guards (.ok favesServer) "FAVES" "Movies"
      (some ["Alien"]) none).2 favesServer favesSection rfl rfl rfl
      ⟨{ title := "Faves", ratingKey := 7 }, by simp [favesSection], by decide⟩

/-- Subset preservation for each step of the connection trace model. -/
theorem connStep_subset (s : ConnState) (ev : ConnEvent)
    (h : s.active ⊆ s.running) : (connStep s ev).active ⊆ (connStep s ev).running := by
  cases ev with
  | start t => exact Finset.insert_subset_insert t h
  | finish t => exact Finset.erase_subset_erase t h
  | shutdown => exact Finset.empty_subset _

/-- Subset preservation along a whole trace. -/
theorem connRunFrom_subset :
    ∀ (evs : List ConnEvent) (s : ConnState), s.active ⊆ s.running →
      (evs.foldl connStep s).active ⊆ (evs.foldl connStep s).running := by
  intro evs
  induction evs with
  | nil => intro s h; exact h
  | cons ev rest ih =>
      intro s h
      exact ih (connStep s ev) (connStep_subset s ev h)

/-- **C5**: along every trace of accept / finish / shutdown events with the
effects the code gives them (added on accept, discarded in the `finally`
whenever the handler finishes, cancelled and cleared on shutdown), a task is
a member of `active_connections` only while its handler is running, and after
an application shutdown every previously remaining task has been cancelled
and the set is empty.  These events are the only operations the code performs
on the set, so the model is exhaustive. -/
theorem C5_active_connections_invariant :
    (∀ evs : List ConnEvent, (connRun evs).active ⊆ (connRun evs).running)
    ∧ (∀ evs : List ConnEvent,
        (connRun (evs ++ [.shutdown])).active = ∅
        ∧ (connRun evs).active ⊆ (connRun (evs ++ [.shutdown])).cancelled) := by
  constructor
  · intro evs
    exact connRunFrom_subset evs connInit (Finset.empty_subset _)
  · intro evs
    constructor
    · simp [connRun, List.foldl_append, connStep]
    · simp only [connRun, List.foldl_append, List.foldl_cons, List.foldl_nil, connStep]
      exact Finset.subset_union_right

/-- Each completed request holds the fixed response for its URL, whatever
position it completed at. -/
theorem completeFrom_eq (fetch : String → MediaContainer) (urls : List String) :
    ∀ (sched : List Nat) (acc : Nat → Option MediaContainer) (j : Nat),
      completeFrom fetch urls acc sched j
        = if j ∈ sched then some (fetch (urls.getD j "")) else acc j := by
  intro sched
  induction sched with
  | nil => intro acc j; simp [completeFrom]
  | cons i rest ih =>
      intro acc j
      simp only [completeFrom]
      rw [ih]
      by_cases hj : j ∈ rest
      · simp [hj]
      · by_cases hji : j = i
        · subst hji
          simp [hj]
        · simp [hj, hji]

/-- The gathered result at a request index is the fixed response for its URL
whenever that request completes. -/
theorem gatherGet_mem (fetch : String → MediaContainer) (urls : List String)
    (sched : List Nat) (j : Nat) (h : j ∈ sched) :
    gatherGet fetch urls sched j = fetch (urls.getD j "") := by
  unfold gatherGet
  rw [completeFrom_eq]
  simp [h]

/-- The branch computation only reads the seasons/episodes gather through the
fixed responses, so any completing schedule gives the sequential result. -/
theorem statsBranches_sched_indep (env : StatsEnv) (sec : SectionDir)
    (all_data unwatched_data : MediaContainer) (sched2 : List Nat)
    (h0 : 0 ∈ sched2) (h1 : 1 ∈ sched2) :
    statsBranches env sec all_data unwatched_data sched2
      = statsBranches env sec all_data unwatched_data [0, 1] := by
  unfold statsBranches
  by_cases hm : sec.type = "movie"
  · simp [hm]
  · by_cases hs : sec.type = "show"
    · simp only [hm, if_false, hs, if_true]
      rw [gatherGet_mem _ _ _ _ h0, gatherGet_mem _ _ _ _ h1,
          gatherGet_mem _ _ _ _ (show (0 : Nat) ∈ [0, 1] by simp),
          gatherGet_mem _ _ _ _ (show (1 : Nat) ∈ [0, 1] by simp)]
    · simp [hm, hs]

/-- **C6**: the statistics computed by `library_get_stats` are independent of
the concurrent scheduling of its fan-out REST reads: for every fixed set of
responses, completing the all/unwatched gather (and, for show libraries, the
seasons/episodes gather) in any order yields exactly the same response record
as issuing the requests sequentially in order. -/
theorem C6_stats_schedule_independent (env : StatsEnv) (library_name : String)
    (sched1 sched2 : List Nat)
    (h1 : 0 ∈ sched1 ∧ 1 ∈ sched1) (h2 : 0 ∈ sched2 ∧ 1 ∈ sched2) :
    library_get_stats env library_name sched1 sched2
      = library_get_stats env library_name [0, 1] [0, 1] := by
  unfold library_get_stats
  cases hfind : env.sections.find? (fun s => pyLower s.title == pyLower library_name) with
  | none => rfl
  | some sec =>
      dsimp only
      rw [gatherGet_mem _ _ _ _ h1.1, gatherGet_mem _ _ _ _ h1.2,
          gatherGet_mem _ _ _ _ (show (0 : Nat) ∈ [0, 1] by simp),
          gatherGet_mem _ _ _ _ (show (1 : Nat) ∈ [0, 1] by simp),
          statsBranches_sched_indep env sec _ _ sched2 h2.1 h2.2]

/-- Witness for C6 at a reversed completion order against a one-section
environment. -/
theorem C6_stats_schedule_independent_witness :
    ((0 ∈ [1, 0] ∧ 1 ∈ [1, 0]) ∧ (0 ∈ [1, 0] ∧ 1 ∈ [1, 0]))
    ∧ library_get_stats statsEnvW "Movies" [1, 0] [1, 0]
        = library_get_stats statsEnvW "Movies" [0, 1] [0, 1] :=
  ⟨⟨⟨by decide, by decide⟩, ⟨by decide, by decide⟩⟩,
   C6_stats_schedule_independent statsEnvW "Movies" [1, 0] [1, 0]
     ⟨by decide, by decide⟩ ⟨by decide, by decide⟩⟩

end PlexSpec
